import Mathlib

/-!
Verification development for the EduAI-suite Notes RAG subsystem
(backend/app/services/notes/notes_service.py,
 backend/app/services/ai/chroma_service.py,
 backend/app/services/ai/gemini_service.py,
 backend/app/api/routes/notes.py).

Python strings are modelled as `List Char` (with thin `String` wrappers at
the interfaces); Python `int` is modelled as `Int`; fallible collaborator
calls (the Gemini client, the ChromaDB client) are modelled as `Except Unit`
values injected through an environment record; while-loops are modelled with
explicit fuel, `none` meaning the loop has not terminated within the given
fuel.
-/

/-- Python `str.isspace` characters (the whitespace set stripped by
`str.strip()`): space, tab, newline, carriage return, vertical tab,
form feed. -/
def pyIsSpace (c : Char) : Bool :=
  c == ' ' || c == '\t' || c == '\n' || c == '\r' ||
  c == Char.ofNat 11 || c == Char.ofNat 12

/-- Python `s.strip()` on a char list: drop whitespace from both ends. -/
def pyStripL (l : List Char) : List Char :=
  ((l.dropWhile pyIsSpace).reverse.dropWhile pyIsSpace).reverse

/-- Python `s.strip()` at the `String` interface. -/
def pyStrip (s : String) : String :=
  String.mk (pyStripL s.toList)

/-- Python slicing `s[a:b]` on a char list: negative indices count from the
end, out-of-range indices are clamped, and an empty slice results when the
clamped start is not below the clamped end. -/
def pySliceL (l : List Char) (a b : Int) : List Char :=
  let n : Int := l.length
  let a' := (if a < 0 then max (n + a) 0 else min a n).toNat
  let b' := (if b < 0 then max (n + b) 0 else min b n).toNat
  (l.take b').drop a'

/-- Python `c.lower()` for a single character (ASCII range, as exercised by
the repository's file names and extensions). -/
def pyLowerChar (c : Char) : Char :=
  if 'A' ≤ c ∧ c ≤ 'Z' then Char.ofNat (c.toNat + 32) else c

/-- Python `s.lower()` on a char list. -/
def pyLowerL (l : List Char) : List Char :=
  l.map pyLowerChar

/-- Python `s.lower()` at the `String` interface. -/
def pyLower (s : String) : String :=
  String.mk (pyLowerL s.toList)

/-- Python `s.split(sep)` for a one-character separator, on a char list.
`"".split(".") = [""]`, `"a.".split(".") = ["a", ""]`, and a string with no
separator occurrence splits into the singleton list holding itself. -/
def pySplitChar (sep : Char) : List Char → List (List Char)
  | [] => [[]]
  | c :: cs =>
    let r := pySplitChar sep cs
    if c = sep then [] :: r
    else
      match r with
      | [] => [[c]]
      | g :: gs => (c :: g) :: gs

/-- Python `s.startswith(p)` on char lists. -/
def pyStartsWith (l p : List Char) : Bool :=
  p.isPrefixOf l

/-- One step of Python `s.replace(pat, repl)` (all occurrences, scanning
left to right, non-overlapping), with fuel bounding the number of scanned
positions; the callers below always pass the length of the subject string,
which is enough fuel since every step consumes at least one character of a
non-empty subject. -/
def pyReplaceGo (pat repl : List Char) : Nat → List Char → List Char
  | 0, l => l
  | _ + 1, [] => []
  | fuel + 1, c :: cs =>
    if pat ≠ [] ∧ pat.isPrefixOf (c :: cs) then
      repl ++ pyReplaceGo pat repl fuel ((c :: cs).drop pat.length)
    else
      c :: pyReplaceGo pat repl fuel cs

/-- Python `s.replace(pat, repl)` on char lists. -/
def pyReplaceL (l pat repl : List Char) : List Char :=
  pyReplaceGo pat repl l.length l

-- ─────────────────────────────────────────
-- notes_service.chunk_text
-- ─────────────────────────────────────────

/-- The `while start < len(text)` loop of `chunk_text`
(notes_service.py:88-95), fuel-indexed: each fuel unit is one loop
iteration; `none` means the loop was still running when the fuel ran out.
The loop body slices `text[start : start + chunk_size]`, appends the slice
to the accumulator when `chunk.strip()` is truthy, and advances `start` by
`chunk_size - overlap`. -/
def chunkTextGo (chars : List Char) (chunk_size overlap : Int) :
    Nat → Int → List (List Char) → Option (List (List Char))
  | 0, start, acc =>
    if start < (chars.length : Int) then none else some acc.reverse
  | fuel + 1, start, acc =>
    if start < (chars.length : Int) then
      let chunk := pySliceL chars start (start + chunk_size)
      let acc' := if pyStripL chunk ≠ [] then chunk :: acc else acc
      chunkTextGo chars chunk_size overlap fuel (start + (chunk_size - overlap)) acc'
    else
      some acc.reverse

/-- `chunk_text(text, chunk_size, overlap)` (notes_service.py:69-97):
`if not text: return []`, then the sliding-window while-loop. Fuel-indexed;
`none` means the loop did not terminate within `fuel` iterations. -/
def chunk_text (text : String) (chunk_size overlap : Int) (fuel : Nat) :
    Option (List String) :=
  if text.toList = [] then some []
  else (chunkTextGo text.toList chunk_size overlap fuel 0 []).map (List.map String.mk)

/-- Window `i` of the spec's sliding window (§4.2 Chunker): starts at
`i * (chunk_size - overlap)`, has length `chunk_size`, truncated at the end
of the text. -/
def chunkWindow (chars : List Char) (chunk_size overlap : Int) (i : Nat) : List Char :=
  pySliceL chars ((i * (chunk_size - overlap).toNat : Nat) : Int)
    (((i * (chunk_size - overlap).toNat : Nat) : Int) + chunk_size)

/-- Modelled from the spec (§4.2 Chunker): the windows `i` with start
`i * (chunk_size - overlap)` below the text length, in index order, with
empty/whitespace-only windows dropped without reordering the survivors. -/
def specChunks (text : String) (chunk_size overlap : Int) : List String :=
  ((((List.range text.toList.length).filter
      (fun i => decide (i * (chunk_size - overlap).toNat < text.toList.length))).map
      (chunkWindow text.toList chunk_size overlap)).filter
      (fun c => decide (pyStripL c ≠ []))).map String.mk

/-- The spec windows with indices from `k` upward (proof generalisation of
`specChunks`). -/
def specChunksFrom (chars : List Char) (chunk_size overlap : Int) (k : Nat) :
    List (List Char) :=
  (((List.range' k (chars.length - k)).filter
      (fun i => decide (i * (chunk_size - overlap).toNat < chars.length))).map
      (chunkWindow chars chunk_size overlap)).filter
      (fun c => decide (pyStripL c ≠ []))

-- ─────────────────────────────────────────
-- gemini_service
-- ─────────────────────────────────────────

/-- Python `s.replace(pat, repl)` at the `String` interface. -/
def pyReplace (s pat repl : String) : String :=
  String.mk (pyReplaceL s.toList pat.toList repl.toList)

/-- Python `s.split(sep)` (one-character separator) at the `String`
interface. -/
def pySplit (s : String) (sep : Char) : List String :=
  (pySplitChar sep s.toList).map String.mk

/-- The `{"subject": ..., "topic": ..., "chapter": ...}` result dict of
`classify_note` (gemini_service.py:37). -/
structure Classification where
  subject : Option String
  topic : Option String
  chapter : Option String
deriving Repr, DecidableEq

/-- One line of the response-parsing loop of `classify_note`
(gemini_service.py:39-46): `if line.startswith("SUBJECT:") ... elif ...`. -/
def classifyLine (r : Classification) (line : String) : Classification :=
  if pyStartsWith line.toList "SUBJECT:".toList then
    { r with subject := some (pyStrip (pyReplace line "SUBJECT:" "")) }
  else if pyStartsWith line.toList "TOPIC:".toList then
    { r with topic := some (pyStrip (pyReplace line "TOPIC:" "")) }
  else if pyStartsWith line.toList "CHAPTER:".toList then
    let chapter := pyStrip (pyReplace line "CHAPTER:" "")
    { r with chapter := if pyLower chapter = "null" then none else some chapter }
  else r

/-- `classify_note(text)` (gemini_service.py:11-51). The
`model.generate_content` call is modelled as an injected
`Except Unit String` (the response text, or the exception the call raised).
On success the reply is split into lines and parsed; on any exception the
`except` branch returns subject "Unknown", topic "Unknown", chapter None. -/
def classify_note (genResp : Except Unit String) : Classification :=
  match genResp with
  | .ok text => (pySplit (pyStrip text) '\n').foldl classifyLine ⟨none, none, none⟩
  | .error _ => ⟨some "Unknown", some "Unknown", none⟩

/-- `summarize_note(text)` (gemini_service.py:54-77): the stripped response
text, or the fixed fallback string from the `except` branch. -/
def summarize_note (genResp : Except Unit String) : String :=
  match genResp with
  | .ok text => pyStrip text
  | .error _ => "Summary not available."

/-- The fixed no-context answer of `answer_question_with_context`
(gemini_service.py:91). -/
def noContextAnswer : String :=
  "I couldn\x27t find relevant information in your notes to answer this question. Try uploading more notes on this topic."

/-- The fixed generation-failure answer of `answer_question_with_context`
(gemini_service.py:118). -/
def generationFailureAnswer : String :=
  "Sorry, I couldn\x27t generate an answer right now. Please try again."

/-- Python `sep.join(parts)`. -/
def pyJoin (sep : String) : List String → String
  | [] => ""
  | [x] => x
  | x :: xs => x ++ sep ++ pyJoin sep xs

/-- The grounded-answer prompt of `answer_question_with_context`
(gemini_service.py:95-111), built from the joined context and the
question. -/
def answerPrompt (context question : String) : String :=
  "You are a helpful study assistant. Answer the student\x27s question using ONLY the provided context from their notes. If the answer is not in the context, say: \"This topic doesn\x27t appear in your uploaded notes.\" Be clear, concise, and educational in your response. CONTEXT FROM STUDENT\x27S NOTES: "
    ++ context ++ " STUDENT\x27S QUESTION: " ++ question ++ " ANSWER:"

/-- `answer_question_with_context(question, context_chunks)`
(gemini_service.py:80-118). `gen` models `model.generate_content`; the
second component of the result counts how many times `model.generate_content`
was invoked on the execution path (0 on the early-return empty-context path,
1 otherwise, whether the call succeeds or raises). -/
def answer_question_with_context (question : String) (context_chunks : List String)
    (gen : String → Except Unit String) : String × Nat :=
  if context_chunks = [] then (noContextAnswer, 0)
  else
    let context := pyJoin "\n\n---\n\n" context_chunks
    match gen (answerPrompt context question) with
    | .ok text => (pyStrip text, 1)
    | .error _ => (generationFailureAnswer, 1)

-- ─────────────────────────────────────────
-- chroma_service
-- ─────────────────────────────────────────

/-- The collection-name derivation of `get_or_create_collection`
(chroma_service.py:31): `"student_" + student_id.replace("-", "_")`. -/
def collection_name (student_id : String) : String :=
  String.mk ("student_".toList ++
    student_id.toList.map (fun c => if c = '-' then '_' else c))

/-- Left inverse used to prove `collection_name` injective on
underscore-free ids: map `'_'` back to `'-'` after dropping the
`"student_"` head. -/
def collectionNameDecode (name : String) : String :=
  String.mk ((name.toList.drop "student_".toList.length).map
    (fun c => if c = '_' then '-' else c))

/-- One chunk stored in a ChromaDB collection: its id, document text, and
metadata (a string-keyed, string-valued dict, as `upload_note` passes it). -/
structure StoredChunk where
  id : String
  document : String
  meta : List (String × String)
deriving Repr, DecidableEq

/-- ChromaDB `where={key: value}` metadata-filter semantics: a chunk matches
when its metadata holds `key` with value `value`. -/
def metaMatches (meta : List (String × String)) (key value : String) : Bool :=
  meta.lookup key == some value

/-- `add_to_collection(student_id, note_id, chunks, metadata)`
(chroma_service.py:40-66), acting on the student's collection: chunk `i`
gets id `f"{note_id}_chunk_{i}"`, every chunk gets the same `metadata`, and
the documents are added to the collection. The ChromaDB client calls are not
wrapped in any try/except in the source, so a client fault (injected as
`outcome`) escapes as an error. -/
def add_to_collection (coll : List StoredChunk) (note_id : String)
    (chunks : List String) (metadata : List (String × String))
    (outcome : Except Unit Unit) : Except Unit (List StoredChunk) :=
  match outcome with
  | .error _ => .error ()
  | .ok _ =>
    .ok (coll ++ ((List.range chunks.length).zip chunks).map
      (fun p => ⟨note_id ++ "_chunk_" ++ toString p.1, p.2, metadata⟩))

/-- `delete_from_collection(student_id, note_id)` (chroma_service.py:101-110)
on the student's collection: fetch the ids of the chunks whose metadata
matches `{"note_id": note_id}`; if there are any, delete exactly those ids,
otherwise do nothing. -/
def delete_from_collection (coll : List StoredChunk) (note_id : String) :
    List StoredChunk :=
  let ids := (coll.filter (fun c => metaMatches c.meta "note_id" note_id)).map
    (fun c => c.id)
  if ids ≠ [] then coll.filter (fun c => decide (c.id ∉ ids)) else coll

-- ─────────────────────────────────────────
-- notes_service.upload_note / ask_question,
-- routes/notes.py delete path
-- ─────────────────────────────────────────

/-- The `NoteSource` enum (models/notes.py:8-10). -/
inductive NoteSource where
  | student
  | faculty
deriving Repr, DecidableEq

/-- The `Note` record persisted by `upload_note` (models/notes.py:12-37,
fields as assigned at notes_service.py:212-224). -/
structure Note where
  id : String
  student_id : String
  subject : Option String
  topic : Option String
  chapter : Option String
  file_url : String
  file_name : String
  file_type : String
  extracted_text : Option String
  summary : Option String
  source : NoteSource
deriving Repr, DecidableEq

/-- Python `x or "Unknown"` for an optional string: `None` and `""` are
falsy and fall back to `"Unknown"`. -/
def pyOrUnknown : Option String → String
  | none => "Unknown"
  | some s => if s = "" then "Unknown" else s

/-- Extension detection of `upload_note` (notes_service.py:162):
`file_name.split(".")[-1].lower()`. -/
def fileExtension (file_name : String) : String :=
  pyLower ((pySplit file_name '.').getLastD "")

/-- `allowed_types` (notes_service.py:163). -/
def allowed_types : List String := ["pdf", "jpg", "jpeg", "png", "bmp", "tiff"]

/-- The `chunk_text(extracted_text)` call of `upload_note`
(notes_service.py:196) with the default chunk_size 500 and overlap 50; fuel
equal to the text length is enough for the loop to finish, since each
iteration advances the start by 450 ≥ 1 (see `chunksOf_eq_spec`). -/
def chunksOf (extracted_text : String) : List String :=
  (chunk_text extracted_text 500 50 extracted_text.length).getD []

/-- The per-call environment of `upload_note` (notes_service.py:139-231):
the request inputs and the outcomes of the external collaborators.
`extract_text`, `upload_to_cloudinary`, `classify_note` and `summarize_note`
absorb their own exceptions in the source, so their results are plain
values; the ChromaDB add call is not wrapped in any try/except, so its
outcome is an `Except`. The two `uuid.uuid4()` calls of the source (one for
the chunk-id prefix passed to `add_to_collection` at line 201, a separate
one for the Note record id at line 213) are injected as two independent
fresh strings. -/
structure UploadEnv where
  student_id : String
  file_name : String
  source : String
  extracted_text : String
  cloudinary_url : String
  classify_resp : Except Unit String
  summarize_resp : Except Unit String
  chroma_add : Except Unit Unit
  chunk_note_uuid : String
  note_uuid : String
deriving Repr

/-- The failures that can escape `upload_note`: the HTTP 400 for an
unsupported extension (notes_service.py:164-168), and an uncaught ChromaDB
fault from `add_to_collection` (no try/except anywhere on that path). -/
inductive UploadError where
  | unsupportedFileType (extension : String)
  | vectorStoreFault
deriving Repr, DecidableEq

/-- The Note record built at notes_service.py:212-224. -/
def buildNote (env : UploadEnv) (classification : Classification)
    (summary : Option String) : Note :=
  { id := env.note_uuid
    student_id := env.student_id
    subject := classification.subject
    topic := classification.topic
    chapter := classification.chapter
    file_url := env.cloudinary_url
    file_name := env.file_name
    file_type := fileExtension env.file_name
    extracted_text :=
      if env.extracted_text = "" then none
      else some (String.mk (pySliceL env.extracted_text.toList 0 5000))
    summary := summary
    source := if env.source = "student" then NoteSource.student else NoteSource.faculty }

/-- The chunk metadata dict built at notes_service.py:203-208. -/
def noteChunkMeta (classification : Classification) (file_name source : String) :
    List (String × String) :=
  [("subject", pyOrUnknown classification.subject),
   ("topic", pyOrUnknown classification.topic),
   ("file_name", file_name),
   ("source", source)]

/-- `upload_note(db, student_id, file, source)` (notes_service.py:139-231),
returning the persisted Note and the student's collection after ingestion.
The source sets `classification`/`summary` defaults, overwrites them inside
`if extracted_text:`, and builds the Note once afterwards; here the two
paths each build the Note with the values they computed, which is the same
record. A falsy extension check rejects with HTTP 400 before anything else;
an uncaught ChromaDB fault escapes before the Note is persisted. -/
def upload_note (env : UploadEnv) (coll : List StoredChunk) :
    Except UploadError (Note × List StoredChunk) :=
  let extension := fileExtension env.file_name
  if extension ∉ allowed_types then .error (.unsupportedFileType extension)
  else if env.extracted_text = "" then
    .ok (buildNote env ⟨none, none, none⟩ none, coll)
  else
    let classification := classify_note env.classify_resp
    let summary := summarize_note env.summarize_resp
    let chunks := chunksOf env.extracted_text
    match (if chunks ≠ [] then
        add_to_collection coll env.chunk_note_uuid chunks
          (noteChunkMeta classification env.file_name env.source) env.chroma_add
      else .ok coll) with
    | .error _ => .error .vectorStoreFault
    | .ok coll' => .ok (buildNote env classification (some summary), coll')

/-- Python `meta.get(key, default)` for the string-valued metadata dicts. -/
def pyDictGet (meta : List (String × String)) (key dflt : String) : String :=
  (meta.lookup key).getD dflt

/-- The ChromaDB query result shape consumed by `ask_question`
(notes_service.py:272-279): `results["documents"]` and
`results["metadatas"]`, each a list of per-query lists. -/
structure SearchResults where
  documents : List (List String)
  metadatas : List (List (List (String × String)))
deriving Repr

/-- The source-building loop of `ask_question` (notes_service.py:276-279):
`f"{meta.get('subject', 'Unknown')} - {meta.get('file_name', 'Unknown')}"`,
appended only when not already present (first-seen order preserved). -/
def buildSources (metas : List (List (String × String))) : List String :=
  metas.foldl (fun acc meta =>
    let source := pyDictGet meta "subject" "Unknown" ++ " - " ++
      pyDictGet meta "file_name" "Unknown"
    if source ∈ acc then acc else acc ++ [source]) []

/-- The result dict of `ask_question` (notes_service.py:285-289), extended
with the number of `model.generate_content` invocations made on the path
(for the call-count property of the spec). -/
structure AskResult where
  question : String
  answer : String
  sources : List String
  genCalls : Nat
deriving Repr

/-- `ask_question(db, student_id, question, subject_filter)`
(notes_service.py:248-289) after the retrieval call: consumes the search
results (the retrieval outcome) and the generation collaborator. Python
truthiness of `results["documents"] and results["documents"][0]` is
modelled by matching the outer list and testing the first inner list for
emptiness. -/
def ask_question (question : String) (results : SearchResults)
    (gen : String → Except Unit String) : AskResult :=
  let context_chunks :=
    match results.documents with
    | [] => []
    | d0 :: _ => if d0 = [] then [] else d0
  let sources :=
    match results.documents with
    | [] => []
    | d0 :: _ =>
      if d0 = [] then []
      else
        match results.metadatas with
        | [] => []
        | m0 :: _ => if m0 = [] then [] else buildSources m0
  let ans := answer_question_with_context question context_chunks gen
  ⟨question, ans.1, sources, ans.2⟩

-- ─────────────────────────────────────────
-- Concrete upload scenarios used by the theorems
-- ─────────────────────────────────────────

/-- A concrete accepted upload: a PDF with extracted text "hello", the
classification and summarization collaborator calls raising, the ChromaDB
add succeeding; distinct uuid values for the chunk-id prefix ("cu") and the
Note record id ("nu"). -/
def uploadEnvOk : UploadEnv :=
  { student_id := "s1", file_name := "a.pdf", source := "student",
    extracted_text := "hello", cloudinary_url := "u",
    classify_resp := .error (), summarize_resp := .error (),
    chroma_add := .ok (), chunk_note_uuid := "cu", note_uuid := "nu" }

/-- The same upload with the ChromaDB add call raising. -/
def uploadEnvChromaFail : UploadEnv :=
  { uploadEnvOk with chroma_add := .error () }

/-- The same upload with the classifier returning a reply that carries no
SUBJECT/TOPIC/CHAPTER lines, so the parsed classification is all-None. -/
def uploadEnvNoLabels : UploadEnv :=
  { uploadEnvOk with classify_resp := .ok "nothing here" }

/-- The Note record `upload_note uploadEnvOk []` persists. -/
def noteA : Note :=
  { id := "nu", student_id := "s1", subject := some "Unknown",
    topic := some "Unknown", chapter := none, file_url := "u",
    file_name := "a.pdf", file_type := "pdf", extracted_text := some "hello",
    summary := some "Summary not available.", source := NoteSource.student }

/-- The collection contents `upload_note uploadEnvOk []` produces: one chunk
whose metadata has no "note_id" key and whose id is derived from the
chunk-uuid "cu", not from the Note id "nu". -/
def collA : List StoredChunk :=
  [⟨"cu_chunk_0", "hello",
    [("subject", "Unknown"), ("topic", "Unknown"), ("file_name", "a.pdf"),
     ("source", "student")]⟩]

lemma specChunksFrom_nil (chars : List Char) (chunk_size overlap : Int) (k : Nat)
    (h : chars.length ≤ k * (chunk_size - overlap).toNat) :
    specChunksFrom chars chunk_size overlap k = [] := by
  unfold specChunksFrom
  have h1 : ((List.range' k (chars.length - k)).filter
      (fun i => decide (i * (chunk_size - overlap).toNat < chars.length))) = [] := by
    apply List.filter_eq_nil_iff.mpr
    intro i hi
    have hki : k ≤ i := (List.mem_range'_1.mp hi).1
    have : k * (chunk_size - overlap).toNat ≤ i * (chunk_size - overlap).toNat :=
      Nat.mul_le_mul_right _ hki
    simp only [decide_eq_true_eq]
    omega
  simp [h1]

lemma specChunksFrom_cons (chars : List Char) (chunk_size overlap : Int) (k : Nat)
    (h : k * (chunk_size - overlap).toNat < chars.length)
    (hstep : 1 ≤ (chunk_size - overlap).toNat) :
    specChunksFrom chars chunk_size overlap k =
      (if pyStripL (chunkWindow chars chunk_size overlap k) = [] then []
       else [chunkWindow chars chunk_size overlap k]) ++
      specChunksFrom chars chunk_size overlap (k + 1) := by
  have hk : k < chars.length := by
    have : k * 1 ≤ k * (chunk_size - overlap).toNat := Nat.mul_le_mul_left k hstep
    omega
  have hrange : List.range' k (chars.length - k)
      = k :: List.range' (k + 1) (chars.length - (k + 1)) := by
    have : chars.length - k = (chars.length - (k + 1)) + 1 := by omega
    rw [this, List.range'_succ]
  unfold specChunksFrom
  rw [hrange, List.filter_cons, if_pos (by simpa using h), List.map_cons, List.filter_cons]
  by_cases hw : pyStripL (chunkWindow chars chunk_size overlap k) = []
  · rw [if_neg (by simp [hw]), if_pos hw, List.nil_append]
  · rw [if_pos (by simp [hw]), if_neg hw, List.singleton_append]

/-- Loop/spec correspondence for `chunk_text`: with positive advance per
iteration and enough fuel, the loop from start position `k * step` produces
the accumulator (reversed) followed by the spec windows with indices from
`k`. -/
lemma chunkTextGo_eq_spec (chars : List Char) (chunk_size overlap : Int)
    (h2 : overlap < chunk_size) :
    ∀ (n k : Nat) (acc : List (List Char)),
      chars.length ≤ k * (chunk_size - overlap).toNat + n →
      chunkTextGo chars chunk_size overlap n ((k * (chunk_size - overlap).toNat : Nat) : Int) acc
        = some (acc.reverse ++ specChunksFrom chars chunk_size overlap k) := by
  have hstep : 1 ≤ (chunk_size - overlap).toNat := by omega
  intro n
  induction n with
  | zero =>
    intro k acc hfuel
    have hg : ¬ ((k * (chunk_size - overlap).toNat : Nat) : Int) < (chars.length : Int) := by
      push_cast
      omega
    rw [chunkTextGo, if_neg hg, specChunksFrom_nil chars chunk_size overlap k (by omega),
      List.append_nil]
  | succ n ih =>
    intro k acc hfuel
    by_cases hk : k * (chunk_size - overlap).toNat < chars.length
    · have hg : ((k * (chunk_size - overlap).toNat : Nat) : Int) < (chars.length : Int) := by
        exact_mod_cast hk
      rw [chunkTextGo, if_pos hg]
      have hcast : ((chunk_size - overlap).toNat : Int) = chunk_size - overlap :=
        Int.toNat_of_nonneg (by omega)
      have hsucc : (((k + 1) * (chunk_size - overlap).toNat : Nat) : Int)
          = ((k * (chunk_size - overlap).toNat : Nat) : Int)
            + (((chunk_size - overlap).toNat : Nat) : Int) := by
        push_cast [Nat.succ_mul]
        ring
      have hstart : ((k * (chunk_size - overlap).toNat : Nat) : Int) + (chunk_size - overlap)
          = (((k + 1) * (chunk_size - overlap).toNat : Nat) : Int) := by
        rw [hsucc, hcast]
      rw [hstart]
      have hfuel' : chars.length ≤ (k + 1) * (chunk_size - overlap).toNat + n := by
        have := Nat.succ_mul k (chunk_size - overlap).toNat
        omega
      rw [ih (k + 1) _ hfuel',
        specChunksFrom_cons chars chunk_size overlap k hk hstep]
      have hwin : pySliceL chars ((k * (chunk_size - overlap).toNat : Nat) : Int)
          (((k * (chunk_size - overlap).toNat : Nat) : Int) + chunk_size)
          = chunkWindow chars chunk_size overlap k := rfl
      rw [hwin]
      by_cases hw : pyStripL (chunkWindow chars chunk_size overlap k) = []
      · rw [if_neg (by simp [hw]), if_pos hw, List.nil_append]
      · rw [if_pos (by simp [hw]), if_neg hw, List.reverse_cons, List.singleton_append,
          List.append_assoc, List.cons_append, List.nil_append]
    · have hg : ¬ ((k * (chunk_size - overlap).toNat : Nat) : Int) < (chars.length : Int) := by
        push_cast
        omega
      rw [chunkTextGo, if_neg hg, specChunksFrom_nil chars chunk_size overlap k (by omega),
        List.append_nil]

/-- The loop of `chunk_text` never terminates when the per-iteration advance
`chunk_size - overlap` is not positive and the text is non-empty: the start
position stays at or below `0`, so the loop guard `start < len(text)` holds
at every iteration. -/
lemma chunkTextGo_no_fuel_enough (chars : List Char) (chunk_size overlap : Int)
    (hlen : 0 < chars.length) (hstep : chunk_size ≤ overlap) :
    ∀ (n : Nat) (start : Int) (acc : List (List Char)), start ≤ 0 →
      chunkTextGo chars chunk_size overlap n start acc = none := by
  intro n
  induction n with
  | zero =>
    intro start acc h
    rw [chunkTextGo, if_pos (by omega)]
  | succ n ih =>
    intro start acc h
    rw [chunkTextGo, if_pos (by omega)]
    exact ih _ _ (by omega)

/-- With positive advance and fuel at least the text length, `chunk_text`
terminates and its result equals the spec windows. -/
lemma chunk_text_eq_specChunks (text : String) (chunk_size overlap : Int)
    (fuel : Nat) (h1 : overlap < chunk_size) (hfuel : text.length ≤ fuel) :
    chunk_text text chunk_size overlap fuel = some (specChunks text chunk_size overlap) := by
  unfold chunk_text specChunks
  by_cases hnil : text.toList = []
  · rw [if_pos hnil, hnil]
    simp
  · rw [if_neg hnil]
    have hlen : text.toList.length ≤ 0 * (chunk_size - overlap).toNat + fuel := by
      have : text.toList.length ≤ fuel := hfuel
      omega
    have h := chunkTextGo_eq_spec text.toList chunk_size overlap h1 fuel 0 [] hlen
    have h0cast : ((0 * (chunk_size - overlap).toNat : Nat) : Int) = 0 := by norm_num
    rw [h0cast] at h
    rw [h]
    simp only [Option.map_some', List.reverse_nil, List.nil_append]
    congr 1
    unfold specChunksFrom
    rw [List.range_eq_range', Nat.sub_zero]

/-- The `chunk_text` call of `upload_note` (defaults 500/50) terminates with
fuel equal to the text length and yields the spec windows, so the `getD` in
`chunksOf` never takes its fallback. -/
lemma chunksOf_eq_spec (text : String) : chunksOf text = specChunks text 500 50 := by
  unfold chunksOf
  rw [chunk_text_eq_specChunks text 500 50 text.length (by norm_num) le_rfl]
  rfl

/-- C8: for chunk_size > overlap ≥ 0, `chunk_text` terminates (given fuel at
least the text length) and returns exactly the sliding windows of the spec:
window `i` starts at `i * (chunk_size - overlap)`, has length `chunk_size`
truncated at the text end, windows are produced while the start is below the
text length, whitespace-only windows are dropped without reordering the
survivors, and the empty string yields the empty sequence. -/
theorem C8_chunk_text_matches_spec_windows (text : String) (chunk_size overlap : Int)
    (fuel : Nat) (_h0 : 0 ≤ overlap) (h1 : overlap < chunk_size)
    (hfuel : text.length ≤ fuel) :
    chunk_text text chunk_size overlap fuel = some (specChunks text chunk_size overlap) :=
  chunk_text_eq_specChunks text chunk_size overlap fuel h1 hfuel

/-- Witness for C8 at text "abcdef", chunk_size 3, overlap 1, fuel 10. -/
theorem C8_chunk_text_matches_spec_windows_witness :
    (0 : Int) ≤ 1 ∧ (1 : Int) < 3 ∧ "abcdef".length ≤ 10 ∧
      chunk_text "abcdef" 3 1 10 = some (specChunks "abcdef" 3 1) :=
  ⟨by decide, by decide, by decide,
    C8_chunk_text_matches_spec_windows "abcdef" 3 1 10 (by decide) (by decide) (by decide)⟩

/-- C4: the claim that `chunk_text` rejects or clamps `overlap ≥ chunk_size`
and terminates is false of the code: there is no rejection or clamping, and
with overlap = chunk_size = 1 on the non-empty text "ab" the loop guard
`start < len(text)` holds at every iteration, so the loop never terminates —
for every fuel bound the loop is still running. -/
theorem C4_chunk_text_diverges_when_overlap_ge_chunk_size :
    ∀ fuel : Nat, chunk_text "ab" 1 1 fuel = none := by
  intro fuel
  unfold chunk_text
  rw [if_neg (by decide),
    chunkTextGo_no_fuel_enough "ab".toList 1 1 (by decide) (by decide) fuel 0 [] le_rfl]
  rfl

/-- Unfolding lemma for `upload_note` on an accepted upload with non-empty
extracted text and a healthy ChromaDB add: the persisted Note is built from
the parsed classification and the summary, and the collection is extended by
the chunks of `chunk_text(extracted_text)`, each carrying the metadata dict
of notes_service.py:203-208 and an id prefixed by the fresh chunk uuid. -/
lemma upload_note_ok (env : UploadEnv) (coll : List StoredChunk)
    (hext : fileExtension env.file_name ∈ allowed_types)
    (hok : env.chroma_add = .ok ())
    (htext : env.extracted_text ≠ "") :
    upload_note env coll = .ok
      (buildNote env (classify_note env.classify_resp)
        (some (summarize_note env.summarize_resp)),
       coll ++ ((List.range (chunksOf env.extracted_text).length).zip
          (chunksOf env.extracted_text)).map
         (fun p => ⟨env.chunk_note_uuid ++ "_chunk_" ++ toString p.1, p.2,
           noteChunkMeta (classify_note env.classify_resp) env.file_name env.source⟩)) := by
  unfold upload_note
  rw [if_neg (not_not_intro hext), if_neg htext]
  by_cases hch : chunksOf env.extracted_text = []
  · simp [hch]
  · simp [hch, add_to_collection, hok]

lemma lookup_noteChunkMeta_subject (c : Classification) (fn src : String) :
    (noteChunkMeta c fn src).lookup "subject" = some (pyOrUnknown c.subject) := rfl

lemma lookup_noteChunkMeta_topic (c : Classification) (fn src : String) :
    (noteChunkMeta c fn src).lookup "topic" = some (pyOrUnknown c.topic) := rfl

lemma lookup_noteChunkMeta_note_id (c : Classification) (fn src : String) :
    (noteChunkMeta c fn src).lookup "note_id" = none := rfl

/-- C1: the claim that after ingestion the collection holds ≥1 chunk whose
metadata `note_id` equals the persisted Note's id fails on the code: the
metadata dict passed to `add_to_collection` (notes_service.py:203-208) has
no "note_id" key at all, and the uuid used for the chunk ids (line 201) is a
fresh value distinct from the Note record's id (line 213). On the concrete
accepted upload `uploadEnvOk` the ingested chunk's metadata `note_id`
lookup is `none`, so no chunk can match the Note id. -/
theorem C1_ingested_chunks_carry_no_note_id_metadata :
    upload_note uploadEnvOk [] = .ok (noteA, collA) ∧ collA ≠ [] ∧
    (∀ c ∈ collA, c.meta.lookup "note_id" = none) ∧
    (∀ c ∈ collA, metaMatches c.meta "note_id" noteA.id = false) :=
  ⟨by rfl, by decide, by decide, by decide⟩

/-- C2 counterexample: a ChromaDB fault during the vector-store add
propagates out of `upload_note` as an error, so no Note record is
persisted for that accepted upload — refuting the claim that every accepted
upload yields a persisted Note and that no vector-store fault escapes. -/
theorem C2_counterexample_vector_store_fault_propagates :
    upload_note uploadEnvChromaFail [] = .error .vectorStoreFault := by rfl

/-- C2 amended: AI-collaborator faults (classification, summarization — both
absorbed inside gemini_service, and the Cloudinary upload, absorbed inside
`upload_to_cloudinary`) never prevent the Note from being persisted; but a
ChromaDB fault in the vector-store add is not absorbed: whenever the upload
reaches a non-empty chunk list it propagates out of `upload_note` as an
error and no Note is persisted. -/
theorem C2_amended_ai_faults_absorbed_vector_store_faults_propagate
    (env : UploadEnv) (coll : List StoredChunk)
    (hext : fileExtension env.file_name ∈ allowed_types) :
    (env.chroma_add = .ok () → ∃ r, upload_note env coll = .ok r) ∧
    (env.chroma_add = .error () → env.extracted_text ≠ "" →
      chunksOf env.extracted_text ≠ [] →
      upload_note env coll = .error .vectorStoreFault) := by
  constructor
  · intro hok
    by_cases htext : env.extracted_text = ""
    · refine ⟨(buildNote env ⟨none, none, none⟩ none, coll), ?_⟩
      unfold upload_note
      rw [if_neg (not_not_intro hext), if_pos htext]
    · exact ⟨_, upload_note_ok env coll hext hok htext⟩
  · intro herr htext hch
    unfold upload_note
    rw [if_neg (not_not_intro hext), if_neg htext]
    simp [hch, add_to_collection, herr]

/-- Witness for the amended C2 at the concrete accepted upload
`uploadEnvOk` (whose classification and summarization calls both raise). -/
theorem C2_amended_witness :
    fileExtension uploadEnvOk.file_name ∈ allowed_types ∧
    uploadEnvOk.chroma_add = .ok () ∧
    ∃ r, upload_note uploadEnvOk [] = .ok r :=
  ⟨by decide, rfl,
    (C2_amended_ai_faults_absorbed_vector_store_faults_propagate uploadEnvOk []
      (by decide)).1 rfl⟩

/-- C5 counterexample: on the concrete upload `uploadEnvOk`, whose
classification collaborator call raises, `upload_note` persists the Note
with subject `some "Unknown"`, not a null subject — refuting the claim that
a classifier failure yields null subject/topic. -/
theorem C5_counterexample_classifier_failure_yields_unknown_not_null :
    upload_note uploadEnvOk [] = .ok (noteA, collA) ∧
    uploadEnvOk.classify_resp = .error () ∧
    noteA.subject = some "Unknown" ∧ ¬ noteA.subject = none :=
  ⟨by rfl, rfl, rfl, by decide⟩

/-- C5 amended: when the classification collaborator call raises,
`classify_note` absorbs the exception and returns subject "Unknown", topic
"Unknown" and chapter None, so the ingested Note is persisted with subject
`"Unknown"`, topic `"Unknown"`, null chapter; and when the summarization
call also raises the summary is the fixed string "Summary not available.",
not null. (All-null classification fields arise only on the empty-extracted-
text path, which skips the collaborator calls entirely.) -/
theorem C5_amended_classifier_failure_persists_unknown
    (env : UploadEnv) (coll : List StoredChunk)
    (hext : fileExtension env.file_name ∈ allowed_types)
    (hok : env.chroma_add = .ok ())
    (htext : env.extracted_text ≠ "")
    (hclass : env.classify_resp = .error ()) :
    ∃ note coll', upload_note env coll = .ok (note, coll') ∧
      note.subject = some "Unknown" ∧ note.topic = some "Unknown" ∧
      note.chapter = none ∧
      (env.summarize_resp = .error () →
        note.summary = some "Summary not available.") := by
  refine ⟨_, _, upload_note_ok env coll hext hok htext, ?_, ?_, ?_, ?_⟩
  · show (classify_note env.classify_resp).subject = some "Unknown"
    rw [hclass]
    rfl
  · show (classify_note env.classify_resp).topic = some "Unknown"
    rw [hclass]
    rfl
  · show (classify_note env.classify_resp).chapter = none
    rw [hclass]
    rfl
  · intro hsum
    show some (summarize_note env.summarize_resp) = some "Summary not available."
    rw [hsum]
    rfl

/-- Witness for the amended C5 at the concrete upload `uploadEnvOk`. -/
theorem C5_amended_witness :
    fileExtension uploadEnvOk.file_name ∈ allowed_types ∧
    uploadEnvOk.chroma_add = .ok () ∧ uploadEnvOk.extracted_text ≠ "" ∧
    uploadEnvOk.classify_resp = .error () ∧
    ∃ note coll', upload_note uploadEnvOk [] = .ok (note, coll') ∧
      note.subject = some "Unknown" ∧ note.topic = some "Unknown" ∧
      note.chapter = none ∧
      (uploadEnvOk.summarize_resp = .error () →
        note.summary = some "Summary not available.") :=
  ⟨by decide, rfl, by decide, rfl,
    C5_amended_classifier_failure_persists_unknown uploadEnvOk []
      (by decide) rfl (by decide) rfl⟩

/-- C9: on every accepted upload with non-empty extracted text, the
persisted Note keeps the classification values unchanged
(notes_service.py:215-216), and per field: whenever classification yields a
null or empty subject, every indexed chunk carries the literal string
"Unknown" as its subject metadata (the `or "Unknown"` fallback of
notes_service.py:204) — so no ChromaDB subject filter equal to a string the
Note stores can match those chunks — and whenever classification yields a
null or empty topic, every indexed chunk carries "Unknown" as its topic
metadata (notes_service.py:205). Each field's substitution holds
independently of the other field's value. -/
theorem C9_unknown_chunk_metadata_null_note_fields
    (env : UploadEnv) (coll : List StoredChunk)
    (hext : fileExtension env.file_name ∈ allowed_types)
    (hok : env.chroma_add = .ok ())
    (htext : env.extracted_text ≠ "") :
    ∃ note coll', upload_note env coll = .ok (note, coll') ∧
      note.subject = (classify_note env.classify_resp).subject ∧
      note.topic = (classify_note env.classify_resp).topic ∧
      ((classify_note env.classify_resp).subject = none ∨
          (classify_note env.classify_resp).subject = some "" →
        (∀ ch ∈ coll'.drop coll.length,
          ch.meta.lookup "subject" = some "Unknown") ∧
        (∀ s, note.subject = some s →
          ∀ ch ∈ coll'.drop coll.length,
            metaMatches ch.meta "subject" s = false)) ∧
      ((classify_note env.classify_resp).topic = none ∨
          (classify_note env.classify_resp).topic = some "" →
        ∀ ch ∈ coll'.drop coll.length,
          ch.meta.lookup "topic" = some "Unknown") := by
  refine ⟨_, _, upload_note_ok env coll hext hok htext, rfl, rfl, ?_, ?_⟩
  · intro hsub
    have hunksub : pyOrUnknown (classify_note env.classify_resp).subject = "Unknown" := by
      rcases hsub with h | h <;> rw [h] <;> rfl
    constructor
    · intro ch hch
      rw [List.drop_left] at hch
      obtain ⟨p, hp, rfl⟩ := List.mem_map.mp hch
      rw [lookup_noteChunkMeta_subject, hunksub]
    · intro s hs ch hch
      rw [List.drop_left] at hch
      obtain ⟨p, hp, rfl⟩ := List.mem_map.mp hch
      have hs' : (classify_note env.classify_resp).subject = some s := hs
      have hse : s = "" := by
        rcases hsub with h | h
        · rw [h] at hs'
          cases hs'
        · rw [h] at hs'
          cases hs'
          rfl
      unfold metaMatches
      rw [lookup_noteChunkMeta_subject, hunksub, hse]
      rfl
  · intro htop ch hch
    have hunktop : pyOrUnknown (classify_note env.classify_resp).topic = "Unknown" := by
      rcases htop with h | h <;> rw [h] <;> rfl
    rw [List.drop_left] at hch
    obtain ⟨p, hp, rfl⟩ := List.mem_map.mp hch
    rw [lookup_noteChunkMeta_topic, hunktop]

/-- Witness for C9: a concrete accepted upload whose classifier reply
contains no SUBJECT/TOPIC lines, so its parsed classification is all-None
and both per-field implications fire. -/
theorem C9_unknown_chunk_metadata_null_note_fields_witness :
    fileExtension uploadEnvNoLabels.file_name ∈ allowed_types ∧
    uploadEnvNoLabels.chroma_add = .ok () ∧
    uploadEnvNoLabels.extracted_text ≠ "" ∧
    ∃ note coll', upload_note uploadEnvNoLabels [] = .ok (note, coll') ∧
      note.subject = (classify_note uploadEnvNoLabels.classify_resp).subject ∧
      note.topic = (classify_note uploadEnvNoLabels.classify_resp).topic ∧
      ((classify_note uploadEnvNoLabels.classify_resp).subject = none ∨
          (classify_note uploadEnvNoLabels.classify_resp).subject = some "" →
        (∀ ch ∈ coll'.drop ([] : List StoredChunk).length,
          ch.meta.lookup "subject" = some "Unknown") ∧
        (∀ s, note.subject = some s →
          ∀ ch ∈ coll'.drop ([] : List StoredChunk).length,
            metaMatches ch.meta "subject" s = false)) ∧
      ((classify_note uploadEnvNoLabels.classify_resp).topic = none ∨
          (classify_note uploadEnvNoLabels.classify_resp).topic = some "" →
        ∀ ch ∈ coll'.drop ([] : List StoredChunk).length,
          ch.meta.lookup "topic" = some "Unknown") :=
  ⟨by decide, rfl, by decide,
    C9_unknown_chunk_metadata_null_note_fields uploadEnvNoLabels []
      (by decide) rfl (by decide)⟩

/-- C3 counterexample: the student-id-to-collection-name mapping of
`get_or_create_collection` is not injective: the distinct ids "a-b" and
"a_b" map to the same collection name "student_a_b". -/
theorem C3_counterexample_collection_name_collision :
    collection_name "a-b" = collection_name "a_b" ∧ ("a-b" : String) ≠ "a_b" :=
  ⟨by rfl, by decide⟩

/-- C3 amended: the mapping is injective on student ids that contain no
underscore (in particular on UUID-shaped ids, which use only hex digits and
hyphens), so for such ids no two students share a collection. -/
theorem C3_amended_collection_name_injective_without_underscore
    (s t : String)
    (hs : ∀ c ∈ s.toList, c ≠ '_') (ht : ∀ c ∈ t.toList, c ≠ '_')
    (hne : s ≠ t) : collection_name s ≠ collection_name t := by
  intro h
  apply hne
  have hinv : ∀ u : String, (∀ c ∈ u.toList, c ≠ '_') →
      collectionNameDecode (collection_name u) = u := by
    intro u hu
    unfold collectionNameDecode collection_name
    rw [show (String.mk ("student_".toList ++
        u.toList.map (fun c => if c = '-' then '_' else c))).toList
        = "student_".toList ++
          u.toList.map (fun c => if c = '-' then '_' else c) from rfl,
      List.drop_left, List.map_map]
    have hmap : u.toList.map ((fun c => if c = '_' then '-' else c) ∘
        (fun c => if c = '-' then '_' else c)) = u.toList.map id :=
      List.map_congr_left (fun c hc => by
        by_cases hdash : c = '-'
        · simp [hdash]
        · simp [hdash, hu c hc])
    rw [hmap, List.map_id]
    rfl
  rw [← hinv s hs, ← hinv t ht, h]

/-- Witness for the amended C3 at the distinct underscore-free ids "a-b"
and "c-d". -/
theorem C3_amended_witness :
    (∀ c ∈ ("a-b" : String).toList, c ≠ '_') ∧
    (∀ c ∈ ("c-d" : String).toList, c ≠ '_') ∧
    ("a-b" : String) ≠ "c-d" ∧
    collection_name "a-b" ≠ collection_name "c-d" :=
  ⟨by decide, by decide, by decide,
    C3_amended_collection_name_injective_without_underscore "a-b" "c-d"
      (by decide) (by decide) (by decide)⟩

/-- C6: when retrieval returns zero chunks (the documents list is empty or
its first per-query list is empty, as in the error-fallback result of
`search_collection`), `ask_question` returns the fixed no-context answer
and an empty sources list, and `model.generate_content` is never invoked on
that path (the invocation count is 0). -/
theorem C6_zero_retrieval_fixed_answer_no_generation
    (question : String) (results : SearchResults)
    (gen : String → Except Unit String)
    (h : results.documents = [] ∨ results.documents.head? = some []) :
    ask_question question results gen = ⟨question, noContextAnswer, [], 0⟩ := by
  rcases h with h | h
  · simp [ask_question, h, answer_question_with_context]
  · cases hd : results.documents with
    | nil => simp [ask_question, hd, answer_question_with_context]
    | cons d0 rest =>
      rw [hd] at h
      have hd0 : d0 = [] := by simpa using h
      simp [ask_question, hd, hd0, answer_question_with_context]

/-- Witness for C6 at the error-fallback search result `[[]]`/`[[]]` and a
generation collaborator that would raise if it were ever invoked. -/
theorem C6_zero_retrieval_witness :
    ask_question "q" ⟨[[]], [[]]⟩ (fun _ => .error ())
      = ⟨"q", noContextAnswer, [], 0⟩ :=
  C6_zero_retrieval_fixed_answer_no_generation "q" ⟨[[]], [[]]⟩
    (fun _ => .error ()) (Or.inr rfl)

/-- C7: the claim that deleting a note removes all of its chunks fails on
the code: `delete_from_collection` filters on a metadata key "note_id" that
`upload_note` never stores, so on the concrete ingested collection `collA`
deleting the persisted note removes nothing — the note's chunk remains in
the collection and remains available to search. (The idempotence half holds
trivially: repeating the delete is also a no-op and raises nothing.) -/
theorem C7_delete_removes_no_chunks :
    upload_note uploadEnvOk [] = .ok (noteA, collA) ∧ collA ≠ [] ∧
    delete_from_collection collA noteA.id = collA ∧
    delete_from_collection (delete_from_collection collA noteA.id) noteA.id
      = collA :=
  ⟨by rfl, by decide, by rfl, by rfl⟩

lemma pySplitChar_no_sep (sep : Char) (l : List Char) (h : sep ∉ l) :
    pySplitChar sep l = [l] := by
  induction l with
  | nil => rfl
  | cons c cs ih =>
    have hcs : sep ∉ cs := fun hm => h (List.mem_cons_of_mem c hm)
    have hc : ¬ c = sep := fun hc => h (by rw [hc]; exact List.mem_cons_self _ _)
    rw [pySplitChar, ih hcs]
    simp [hc]

/-- C10: file-type validation in `upload_note` lowercases the substring
after the last "." of the filename, so acceptance is case-insensitive
("NOTES.PDF" is accepted); and for a filename with no "." the whole
lowercased name is compared against the allowed list, so a file named "pdf"
is accepted. -/
theorem C10_extension_validation_case_insensitive_last_segment :
    fileExtension "NOTES.PDF" ∈ allowed_types ∧
    fileExtension "pdf" ∈ allowed_types ∧
    ∀ fn : String, '.' ∉ fn.toList →
      (fileExtension fn ∈ allowed_types ↔ pyLower fn ∈ allowed_types) := by
  refine ⟨by decide, by decide, fun fn h => ?_⟩
  have hfe : fileExtension fn = pyLower fn := by
    unfold fileExtension pySplit
    rw [pySplitChar_no_sep '.' fn.toList h]
    rfl
  rw [hfe]

/-- Witness for the universally quantified part of C10 at the dot-free
filename "jpeg". -/
theorem C10_extension_validation_witness :
    ('.' ∉ ("jpeg" : String).toList) ∧
    (fileExtension "jpeg" ∈ allowed_types ↔ pyLower "jpeg" ∈ allowed_types) :=
  ⟨by decide,
    C10_extension_validation_case_insensitive_last_segment.2.2 "jpeg" (by decide)⟩
